import Mathlib

/-!
Shallow embedding of the resilient external-data aggregation layer of
`src/app.py` (a Flask dive-log application), together with proofs about it.

Numeric values that the Python code handles as floats are modelled as
rationals (`ℚ`).  Upstream HTTP calls are abstracted as explicit outcome
parameters: a definition that in Python performs `requests.get(...)` here
receives the outcome of that call as an argument.  Process-wide dict caches
are modelled as association lists threaded through the functions.
-/

namespace LagoonLink

/- Batteries marks the `Rat` field operations irreducible, which blocks
kernel evaluation of concrete instances; restore the default so `decide` and
`rfl` can compute with rationals. -/
attribute [local semireducible] Rat.mul Rat.add Rat.sub Rat.inv Rat.ofScientific

/-! ### Python rounding

`round(x, n)` in Python rounds half to even (banker's rounding) at `n`
decimal digits. -/

/-- Round a rational to the nearest integer, ties going to the even integer
(Python's built-in `round` with one argument). -/
def roundHalfEven (x : ℚ) : ℤ :=
  let f : ℤ := Rat.floor x
  let r : ℚ := x - f
  if r < mkRat 1 2 then f
  else if mkRat 1 2 < r then f + 1
  else if f % 2 = 0 then f else f + 1

/-- Python's `round(x, n)` for `n ≥ 0` decimal digits. -/
def pyRound (n : ℕ) (x : ℚ) : ℚ :=
  Rat.divInt (roundHalfEven (x * 10 ^ n)) (10 ^ n)

/-! ### Association-list caches

The Python module keeps two process-wide dict caches (`_marine_cache`,
`_TIDES_CACHE`).  A dict is modelled as an association list where assignment
prepends after removing any previous binding for the key. -/

/-- Dict lookup: `c.get(k)` / `c[k]`. -/
def cacheLookup {κ ε : Type} [DecidableEq κ] (c : List (κ × ε)) (k : κ) : Option ε :=
  match c with
  | [] => none
  | (k', e) :: rest => if k = k' then some e else cacheLookup rest k

/-- Dict assignment: `c[k] = e`. -/
def cacheInsert {κ ε : Type} [DecidableEq κ] (c : List (κ × ε)) (k : κ) (e : ε) :
    List (κ × ε) :=
  (k, e) :: c.filter (fun p => decide (p.1 ≠ k))

/-! ### Marine conditions fetcher (`_fetch_marine`, src/app.py:130-168) -/

/-- The `hourly` block of the marine provider's JSON response
(src/app.py:151).  Each variable is either absent or null (`none`) or an
array of hourly samples; each sample is a JSON number or null. -/
structure HourlyBlock where
  wind_speed_10m : Option (List (Option ℚ))
  wind_direction_10m : Option (List (Option ℚ))
  wave_height : Option (List (Option ℚ))
  wave_direction : Option (List (Option ℚ))
  wave_period : Option (List (Option ℚ))
  sea_surface_temperature : Option (List (Option ℚ))
deriving DecidableEq, Repr

/-- Outcome of the single marine HTTP request: a 2xx response whose JSON body
may or may not contain an `hourly` block, or any failure (request error,
non-2xx status via `raise_for_status`, 8-second timeout, JSON parse error) —
all failures are caught by the same `except Exception` in the source. -/
inductive MarineUpstream where
  | ok (hourly : Option HourlyBlock)
  | failure
deriving DecidableEq

/-- The `data` dict built at src/app.py:157-164.  `wind_speed_kt` is always a
number because the code coerces a missing sample with `or 0` before the unit
conversion; every other field is stored as-is and may be null. -/
structure MarineData where
  wind_speed_kt : ℚ
  wind_dir : Option ℚ
  wave_height_m : Option ℚ
  wave_dir : Option ℚ
  wave_period_s : Option ℚ
  sst_c : Option ℚ
deriving DecidableEq, Repr

/-- `last(name)` (src/app.py:153-155): `arr = h.get(name) or []`, then
`arr[-1] if arr else None`.  The returned sample may itself be null. -/
def lastSample (arr : Option (List (Option ℚ))) : Option ℚ :=
  ((arr.getD []).getLast?).join

/-- Conversion factor m/s → kt used at src/app.py:158. -/
def KT_PER_MS : ℚ := mkRat 539957 1000000

structure MarineCacheEntry where
  ts : ℚ
  data : MarineData
deriving DecidableEq

abbrev MarineKey := ℚ × ℚ

abbrev MarineCache := List (MarineKey × MarineCacheEntry)

/-- `_MARINE_TTL = 15 * 60` (src/app.py:118). -/
def MARINE_TTL : ℚ := 15 * 60

/-- Embedding of `_fetch_marine(lat, lon)` (src/app.py:130-168).  `cache` is
the `_marine_cache` dict, `now` is `time.time()`, and `upstream` is the
outcome of the HTTP request this call would make on a cache miss.  Returns
the function's result together with the cache after the call. -/
def fetch_marine (cache : MarineCache) (now lat lon : ℚ) (upstream : MarineUpstream) :
    Option MarineData × MarineCache :=
  let key : MarineKey := (pyRound 2 lat, pyRound 2 lon)
  let freshHit : Option MarineData :=
    match cacheLookup cache key with
    | some e => if now - e.ts < MARINE_TTL then some e.data else none
    | none => none
  match freshHit with
  | some d => (some d, cache)
  | none =>
    match upstream with
    | .failure => (none, cache)
    | .ok hourly =>
      let h := hourly.getD ⟨none, none, none, none, none, none⟩
      let data : MarineData :=
        { wind_speed_kt := pyRound 1 (((lastSample h.wind_speed_10m).getD 0) * KT_PER_MS)
          wind_dir := lastSample h.wind_direction_10m
          wave_height_m := lastSample h.wave_height
          wave_dir := lastSample h.wave_direction
          wave_period_s := lastSample h.wave_period
          sst_c := lastSample h.sea_surface_temperature }
      (some data, cacheInsert cache key ⟨now, data⟩)

/-! ### Nearby spots (`api_nearby_spots`, src/app.py:321-357)

The candidate assembly from the dive store (public dives plus the caller's
own, src/app.py:331-336) is an external collaborator; the embedding starts
from the assembled `spots` list exactly as the per-spot loop at
src/app.py:338-357 does. -/

/-- A dive record as consumed by the nearby-spots loop. -/
structure Dive where
  id : ℕ
  name : String
  lat : ℚ
  lon : ℚ
  notes : Option String
  is_public : Bool
deriving DecidableEq, Repr

/-- One element of the JSON array returned by `api_nearby_spots`
(src/app.py:346-354). -/
structure SpotRow where
  id : ℕ
  name : String
  lat : ℚ
  lon : ℚ
  distance_km : ℚ
  notes : String
  is_public : Bool
  live : Option MarineData
deriving DecidableEq, Repr

/-- The per-spot loop of `api_nearby_spots` (src/app.py:338-354): skip ids
already seen, compute the distance, keep spots within `radius`, enrich each
kept spot with `_fetch_marine` (threading the marine cache).  `dist` stands
for `_haversine_km` and `upstream` gives the marine request outcome for each
coordinate. -/
def collectRows (dist : ℚ → ℚ → ℚ → ℚ → ℚ) (upstream : ℚ → ℚ → MarineUpstream)
    (now lat lon radius : ℚ) :
    List Dive → List ℕ → MarineCache → List SpotRow × MarineCache
  | [], _, cache => ([], cache)
  | d :: rest, seen, cache =>
    if d.id ∈ seen then collectRows dist upstream now lat lon radius rest seen cache
    else
      let seen' := d.id :: seen
      let dkm := dist lat lon d.lat d.lon
      if dkm ≤ radius then
        let fm := fetch_marine cache now d.lat d.lon (upstream d.lat d.lon)
        let row : SpotRow :=
          { id := d.id, name := d.name, lat := d.lat, lon := d.lon
            distance_km := pyRound 1 dkm, notes := d.notes.getD ""
            is_public := d.is_public, live := fm.1 }
        let tail := collectRows dist upstream now lat lon radius rest seen' fm.2
        (row :: tail.1, tail.2)
      else collectRows dist upstream now lat lon radius rest seen' cache

/-- Sort key of `rows.sort(key=lambda r: r["distance_km"])` (src/app.py:356). -/
def rowLE (a b : SpotRow) : Prop := a.distance_km ≤ b.distance_km

instance : DecidableRel rowLE := fun a b => inferInstanceAs (Decidable (_ ≤ _))

/-- Embedding of `api_nearby_spots` from the assembled candidate list on
(src/app.py:338-357): dedup/filter/enrich, stable sort ascending by the
rounded distance, truncate to 8. -/
def api_nearby_spots (dist : ℚ → ℚ → ℚ → ℚ → ℚ) (upstream : ℚ → ℚ → MarineUpstream)
    (now lat lon radius : ℚ) (spots : List Dive) (cache : MarineCache) :
    List SpotRow × MarineCache :=
  let built := collectRows dist upstream now lat lon radius spots [] cache
  ((built.1.insertionSort rowLE).take 8, built.2)

/-! ### Tide station resolver (`_nearest_tide_station`, src/app.py:378-446) -/

/-- One entry of the station directory's JSON `stations` array
(src/app.py:391).  A field is `none` when the key is absent; for `lat`/`lng`,
`none` also covers a value `float()` cannot parse, since every use of those
fields goes through `float(...)` inside `try`. -/
structure DirStation where
  id : Option String
  name : Option String
  state : Option String
  lat : Option ℚ
  lng : Option ℚ
  status : Option String
deriving DecidableEq, Repr

/-- The station dict returned by `_nearest_tide_station`. -/
structure TideStation where
  id : String
  name : String
  state : String
  lat : Option ℚ
  lon : Option ℚ
  distance_km : Option ℚ
deriving DecidableEq, Repr

/-- Python's `str.lower` restricted to its ASCII behaviour (the directory
status values are plain ASCII); `String.toLower` itself is not
kernel-reducible, so the mapping is applied on the character list. -/
def lowerString (s : String) : String := ⟨s.data.map Char.toLower⟩

/-- `s.get("status", "").lower() == "active"` (src/app.py:404). -/
def isActive (s : DirStation) : Bool :=
  lowerString (s.status.getD "") = "active"

/-- `abs` on a rational, mirroring Python's `abs` on floats. -/
def ratAbs (x : ℚ) : ℚ := if x < 0 then -x else x

/-- Initial `best_d = 1e12` (src/app.py:397). -/
def BIG_D : ℚ := 10 ^ 12

/-- One pass of the best-candidate selection loops (src/app.py:398-414):
stations whose `lat`/`lng` are missing or unparsable are skipped
(`except: continue`); with `activeOnly` the station must also have status
"active".  The accumulator is the current `(best, best_d)`. -/
def scanPass (dist : ℚ → ℚ → ℚ → ℚ → ℚ) (lat lon : ℚ) (activeOnly : Bool) :
    List DirStation → Option DirStation × ℚ → Option DirStation × ℚ
  | [], acc => acc
  | s :: rest, acc =>
    match s.lat, s.lng with
    | some sl, some sg =>
      let d := dist lat lon sl sg
      if (!activeOnly || isActive s) && decide (d < acc.2) then
        scanPass dist lat lon activeOnly rest (some s, d)
      else
        scanPass dist lat lon activeOnly rest acc
    | _, _ => scanPass dist lat lon activeOnly rest acc

/-- The two selection passes (src/app.py:397-414): first restricted to active
stations; if that leaves `best` as `None`, a second pass over all stations
(with `best_d` still at its initial value). -/
def bestCandidate (dist : ℚ → ℚ → ℚ → ℚ → ℚ) (lat lon : ℚ)
    (stations : List DirStation) : Option DirStation × ℚ :=
  let first := scanPass dist lat lon true stations (none, BIG_D)
  match first.1 with
  | some _ => first
  | none => scanPass dist lat lon false stations (none, BIG_D)

/-- The sanity guard (src/app.py:418-422): reject only when the candidate is
more than 10 degrees away in latitude AND in longitude; if either coordinate
is missing/unparsable the guard is skipped (`except: pass`). -/
def sanityReject (s : DirStation) (lat lon : ℚ) : Bool :=
  match s.lat, s.lng with
  | some bl, some bg => decide (10 < ratAbs (bl - lat)) && decide (10 < ratAbs (bg - lon))
  | _, _ => false

/-- Building the returned station dict for an accepted candidate
(src/app.py:424-431).  `str(best["id"])` is the one field access not guarded
by a `try`, so a candidate without an `id` key raises `KeyError`, modelled as
`.error ()`. -/
def acceptStation (s : DirStation) (d : ℚ) : Except Unit TideStation :=
  match s.id with
  | none => .error ()
  | some i =>
    .ok { id := i, name := s.name.getD "NOAA Station", state := s.state.getD ""
          lat := s.lat, lon := s.lng, distance_km := some (pyRound 2 d) }

/-- One iteration of the radius loop (src/app.py:386-431) given that radius's
directory query result (a failed or null query yields `[]`,
src/app.py:392-393).  `none` means `continue` to the next radius. -/
def tryRadius (dist : ℚ → ℚ → ℚ → ℚ → ℚ) (lat lon max_km : ℚ)
    (stations : List DirStation) : Option (Except Unit TideStation) :=
  if stations.isEmpty then none
  else
    match bestCandidate dist lat lon stations with
    | (none, _) => none
    | (some s, d) =>
      if max_km < d then none
      else if sanityReject s lat lon then none
      else some (acceptStation s d)

/-- The Newport, RI fallback station (src/app.py:383-384, 434-436, 445-446). -/
def NEWPORT : TideStation :=
  { id := "8452660", name := "Newport, RI", state := "RI"
    lat := some (mkRat 41504 1000), lon := some (mkRat (-71326) 1000), distance_km := none }

/-- Galveston Pier 21, TX fallback station (src/app.py:438-439). -/
def GALVESTON : TideStation :=
  { id := "8771450", name := "Galveston Pier 21, TX", state := "TX"
    lat := some (mkRat 2931 100), lon := some (mkRat (-9479) 100), distance_km := none }

/-- San Francisco, CA fallback station (src/app.py:441-442). -/
def SAN_FRANCISCO : TideStation :=
  { id := "9414290", name := "San Francisco, CA", state := "CA"
    lat := some (mkRat 37806 1000), lon := some (mkRat (-122465) 1000), distance_km := none }

/-- East Coast / NE band (src/app.py:434). -/
def inEastBand (lat lon : ℚ) : Prop := -90 ≤ lon ∧ lon ≤ -60 ∧ 25 ≤ lat ∧ lat ≤ 50

/-- Gulf band (src/app.py:437). -/
def inGulfBand (lat lon : ℚ) : Prop := -105 ≤ lon ∧ lon < -90 ∧ 25 ≤ lat ∧ lat ≤ 35

/-- West Coast band (src/app.py:440). -/
def inWestBand (lat lon : ℚ) : Prop := -125 ≤ lon ∧ lon < -105 ∧ 30 ≤ lat ∧ lat ≤ 50

instance (lat lon : ℚ) : Decidable (inEastBand lat lon) := instDecidableAnd
instance (lat lon : ℚ) : Decidable (inGulfBand lat lon) := instDecidableAnd
instance (lat lon : ℚ) : Decidable (inWestBand lat lon) := instDecidableAnd

/-- Regional defaults by coordinate band (src/app.py:433-446). -/
def regionalDefault (lat lon : ℚ) : TideStation :=
  if inEastBand lat lon then NEWPORT
  else if inGulfBand lat lon then GALVESTON
  else if inWestBand lat lon then SAN_FRANCISCO
  else NEWPORT

/-- The expanding search radii `(0.5, 1.0, 2.5)` (src/app.py:386). -/
def DELTAS : List ℚ := [mkRat 1 2, 1, mkRat 5 2]

/-- The radius loop followed by the regional defaults (src/app.py:386-446). -/
def resolveRadii (dist : ℚ → ℚ → ℚ → ℚ → ℚ) (lat lon max_km : ℚ)
    (dir : ℚ → List DirStation) : List ℚ → Except Unit TideStation
  | [] => .ok (regionalDefault lat lon)
  | δ :: rest =>
    match tryRadius dist lat lon max_km (dir δ) with
    | none => resolveRadii dist lat lon max_km dir rest
    | some r => r

/-- Embedding of `_nearest_tide_station(lat, lon, max_km)`
(src/app.py:378-446).  `dist` stands for `_tide_haversine_km`; `coord` is
`none` when `float(lat)`/`float(lon)` raises (src/app.py:380-384); `dir δ`
is the station list the directory query returns for search radius `δ`. -/
def nearest_tide_station (dist : ℚ → ℚ → ℚ → ℚ → ℚ) (coord : Option (ℚ × ℚ))
    (dir : ℚ → List DirStation) (max_km : ℚ) : Except Unit TideStation :=
  match coord with
  | none => .ok NEWPORT
  | some (lat, lon) => resolveRadii dist lat lon max_km dir DELTAS

/-! ### Resilient tide fetchers (src/app.py:495-523) -/

/-- One point of the hourly prediction series (src/app.py:466). -/
structure TidePoint where
  t : String
  v : ℚ
deriving DecidableEq, Repr

/-- One high/low event (src/app.py:489). -/
structure TideEvent where
  t : String
  v : ℚ
  type : String
deriving DecidableEq, Repr

/-- Outcome of one upstream NOAA data call, as classified by the `except`
clauses at src/app.py:501-507: a successful (already parsed) value, a
`requests.HTTPError` carrying `getattr(e.response, "status_code", None)`,
or any other `requests.RequestException`. -/
inductive UpstreamOutcome (σ : Type) where
  | success (v : σ)
  | httpError (code : Option ℕ)
  | requestFail
deriving DecidableEq

/-- `code in (502, 503, 504)` (src/app.py:503, 517). -/
def retryableCode (c : Option ℕ) : Bool :=
  c = some 502 ∨ c = some 503 ∨ c = some 504

/-- Failure of a resilient fetch: a re-raised `requests.HTTPError`
(src/app.py:505, 519) or the final `RuntimeError("NOAA predictions
unavailable")` (src/app.py:508). -/
inductive FetchFailure where
  | httpError (code : Option ℕ)
  | unavailable
deriving DecidableEq, Repr

/-- The flattened attempt schedule of `for hrs in (36, 30, 24): for _ in
range(2)` (src/app.py:497-498): the window size of each successive call. -/
def WINDOW_SCHEDULE : List ℕ := [36, 36, 30, 30, 24, 24]

/-- The retry loop of `_fetch_predictions_resilient` (src/app.py:497-508)
over the remaining attempt schedule.  `outcome hrs k` is the outcome of the
`k`-th upstream call (made with window `hrs`, i.e. `range=hrs+6`); `k`
counts the calls issued so far.  Returns the result together with the total
number of upstream calls issued. -/
def runPredictionAttempts {σ : Type} (outcome : ℕ → ℕ → UpstreamOutcome σ) :
    List ℕ → ℕ → Except FetchFailure σ × ℕ
  | [], k => (.error .unavailable, k)
  | hrs :: rest, k =>
    match outcome hrs k with
    | .success v => (.ok v, k + 1)
    | .httpError c =>
      if retryableCode c then runPredictionAttempts outcome rest (k + 1)
      else (.error (.httpError c), k + 1)
    | .requestFail => runPredictionAttempts outcome rest (k + 1)

/-- Embedding of `_fetch_predictions_resilient` (src/app.py:495-508). -/
def fetch_predictions_resilient (outcome : ℕ → ℕ → UpstreamOutcome (List TidePoint)) :
    Except FetchFailure (List TidePoint) × ℕ :=
  runPredictionAttempts outcome WINDOW_SCHEDULE 0

/-- The retry loop of `_fetch_hilo_resilient` (src/app.py:512-521) with `n`
attempts remaining; falling off the loop returns `[]` (src/app.py:523). -/
def runHiloAttempts (outcome : ℕ → UpstreamOutcome (List TideEvent)) :
    ℕ → ℕ → Except FetchFailure (List TideEvent)
  | 0, _ => .ok []
  | n + 1, k =>
    match outcome k with
    | .success v => .ok v
    | .httpError c =>
      if retryableCode c then runHiloAttempts outcome n (k + 1)
      else .error (.httpError c)
    | .requestFail => runHiloAttempts outcome n (k + 1)

/-- Embedding of `_fetch_hilo_resilient` (src/app.py:511-523): `for _ in
range(2)`. -/
def fetch_hilo_resilient (outcome : ℕ → UpstreamOutcome (List TideEvent)) :
    Except FetchFailure (List TideEvent) :=
  runHiloAttempts outcome 2 0

/-! ### The tides endpoint (`api_tides`, src/app.py:547-585)

Station selection (explicit `station` parameter, or resolution via
`_nearest_tide_station` / `_station_meta_by_id`) happens before the caching
logic; the embedding takes the chosen `station` id and `meta` dict as
inputs and models the cache/fetch/fallback logic from src/app.py:564 on. -/

/-- A `_TIDES_CACHE` entry (src/app.py:365, written at src/app.py:576-577). -/
structure TidesCacheEntry where
  ts : ℚ
  meta : TideStation
  series : List TidePoint
  hilo : List TideEvent
  stale : Bool
deriving DecidableEq, Repr

abbrev TidesCache := List (String × TidesCacheEntry)

/-- `_TIDES_TTL = 10 * 60` (src/app.py:366). -/
def TIDES_TTL : ℚ := 10 * 60

/-- The JSON response of `/api/tides`: either a payload whose `station`
object carries the meta fields plus `point_count` and `stale`, or the 502
"Tide data temporarily unavailable from NOAA." error (src/app.py:585). -/
inductive TidesResponse where
  | payload (meta : TideStation) (point_count : ℕ) (stale : Bool)
      (series : List TidePoint) (hilo : List TideEvent)
  | unavailable502
deriving DecidableEq, Repr

/-- The stale-or-fail fallback (src/app.py:580-585): serve the (possibly
expired) cached entry with `stale=True`, or fail with 502 when there is no
cached entry; the cache is not written in either case. -/
def tidesFallback (cache : TidesCache) (meta : TideStation)
    (cached : Option TidesCacheEntry) : TidesResponse × TidesCache :=
  match cached with
  | some e => (.payload meta e.series.length true e.series e.hilo, cache)
  | none => (.unavailable502, cache)

/-- The live-fetch branch of `api_tides` (src/app.py:572-585): fetch
predictions then hilo; on success cache `stale=False` and respond; any
exception from either fetch lands in the `except` and falls back. -/
def tidesLiveFetch (cache : TidesCache) (station : String) (meta : TideStation)
    (now : ℚ) (predOutcome : ℕ → ℕ → UpstreamOutcome (List TidePoint))
    (hiloOutcome : ℕ → UpstreamOutcome (List TideEvent))
    (cached : Option TidesCacheEntry) : TidesResponse × TidesCache :=
  match (fetch_predictions_resilient predOutcome).1 with
  | .error _ => tidesFallback cache meta cached
  | .ok series =>
    match fetch_hilo_resilient hiloOutcome with
    | .error _ => tidesFallback cache meta cached
    | .ok hiloEvents =>
      let entry : TidesCacheEntry :=
        { ts := now, meta := meta, series := series, hilo := hiloEvents, stale := false }
      (.payload meta series.length false series hiloEvents,
       cacheInsert cache station entry)

/-- Embedding of the cache logic of `api_tides` (src/app.py:564-585) for the
chosen `station`/`meta`: serve a fresh cache entry directly (with the
up-to-date `meta` label), otherwise attempt the live fetch with stale
fallback. -/
def api_tides (cache : TidesCache) (station : String) (meta : TideStation)
    (now : ℚ) (predOutcome : ℕ → ℕ → UpstreamOutcome (List TidePoint))
    (hiloOutcome : ℕ → UpstreamOutcome (List TideEvent)) :
    TidesResponse × TidesCache :=
  match cacheLookup cache station with
  | some e =>
    if now - e.ts < TIDES_TTL then
      (.payload meta e.series.length e.stale e.series e.hilo, cache)
    else
      tidesLiveFetch cache station meta now predOutcome hiloOutcome (some e)
  | none => tidesLiveFetch cache station meta now predOutcome hiloOutcome none

/-! ### Concrete inputs used by witnesses and counterexamples -/

/-- An hourly block whose wind-speed array is empty and all other variables
are absent. -/
def emptyWindHourly : HourlyBlock :=
  ⟨some [], none, none, none, none, none⟩

/-- An hourly block with a 10 m/s last wind sample, a null last wave
direction sample, and an empty wave-period array. -/
def sampleHourly : HourlyBlock :=
  ⟨some [some 10], some [some 180], some [some 2, some 3], some [none], some [], none⟩

/-- Prediction outcomes: every upstream call returns HTTP 503. -/
def all503 : ℕ → ℕ → UpstreamOutcome (List TidePoint) := fun _ _ => .httpError (some 503)

/-- Prediction outcomes: every upstream call returns HTTP 404. -/
def all404 : ℕ → ℕ → UpstreamOutcome (List TidePoint) := fun _ _ => .httpError (some 404)

/-- Hilo outcomes: every upstream call returns HTTP 404 (a non-retryable
status). -/
def hilo404 : ℕ → UpstreamOutcome (List TideEvent) := fun _ => .httpError (some 404)

/-- Hilo outcomes: every upstream call returns HTTP 503. -/
def hilo503 : ℕ → UpstreamOutcome (List TideEvent) := fun _ => .httpError (some 503)

/-- A cached tide bundle fetched at time 0. -/
def tideEntryW : TidesCacheEntry :=
  { ts := 0, meta := NEWPORT, series := [⟨"2025-01-01 00:00", 1⟩, ⟨"2025-01-01 01:00", 2⟩]
    hilo := [⟨"2025-01-01 03:11", 3, "H"⟩], stale := false }

/-- A tides cache holding `tideEntryW` for the Newport station. -/
def tidesCacheW : TidesCache := [("8452660", tideEntryW)]

/-- A directory station record with no `id` key (otherwise healthy). -/
def statNoId : DirStation :=
  { id := none, name := some "Ghost", state := none
    lat := some 41, lng := some (-71), status := some "active" }

/-- A directory returning `statNoId` for every search radius. -/
def dirNoId : ℚ → List DirStation := fun _ => [statNoId]

/-- A directory whose every query comes back empty (or failed). -/
def dirEmpty : ℚ → List DirStation := fun _ => []

/-- A distance function that reports 1 km for every pair. -/
def distConst1 : ℚ → ℚ → ℚ → ℚ → ℚ := fun _ _ _ _ => 1

/-- A distance function that reports 50 km for every pair. -/
def distConst50 : ℚ → ℚ → ℚ → ℚ → ℚ := fun _ _ _ _ => 50

/-- An active station 2 degrees north and 15 degrees east of the query point
`(41, -86)` used with it: latitude offset 2, longitude offset 15. -/
def statFarLon : DirStation :=
  { id := some "1117777", name := some "Far Lon", state := some "MI"
    lat := some 43, lng := some (-71), status := some "active" }

/-- Twenty distinct public dives at the origin. -/
def spots20 : List Dive :=
  (List.range 20).map fun i =>
    { id := i, name := "spot", lat := 0, lon := 0, notes := none, is_public := true }

/-- Marine upstream map: every request fails. -/
def marineAllFail : ℚ → ℚ → MarineUpstream := fun _ _ => .failure

/-! ### Helper lemmas -/

theorem cacheLookup_nil {κ ε : Type} [DecidableEq κ] (k : κ) :
    cacheLookup ([] : List (κ × ε)) k = none := rfl

theorem cacheLookup_cons {κ ε : Type} [DecidableEq κ] (k' : κ) (e : ε)
    (rest : List (κ × ε)) (s : κ) :
    cacheLookup ((k', e) :: rest) s = if s = k' then some e else cacheLookup rest s := rfl

theorem cacheLookup_filter_ne {κ ε : Type} [DecidableEq κ] (c : List (κ × ε)) (k s : κ)
    (h : s ≠ k) :
    cacheLookup (c.filter fun p => decide (p.1 ≠ k)) s = cacheLookup c s := by
  induction c with
  | nil => rfl
  | cons p rest ih =>
    obtain ⟨k', e⟩ := p
    by_cases hk : k' = k
    · subst hk
      rw [List.filter_cons_of_neg (by simp)]
      rw [ih, cacheLookup_cons, if_neg h]
    · rw [List.filter_cons_of_pos (by simp [hk])]
      rw [cacheLookup_cons, cacheLookup_cons]
      by_cases hs : s = k'
      · rw [if_pos hs, if_pos hs]
      · rw [if_neg hs, if_neg hs, ih]

theorem cacheLookup_insert {κ ε : Type} [DecidableEq κ] (c : List (κ × ε)) (k : κ) (e : ε)
    (s : κ) :
    cacheLookup (cacheInsert c k e) s = if s = k then some e else cacheLookup c s := by
  unfold cacheInsert
  rw [cacheLookup_cons]
  by_cases hs : s = k
  · rw [if_pos hs, if_pos hs]
  · rw [if_neg hs, if_neg hs]
    exact cacheLookup_filter_ne c k s hs

/-! ### C8: marine failures are never cached -/

/-- C8: when there is no fresh cache entry for the request's key (so an
upstream fetch actually happens) and that fetch fails for any reason,
`_fetch_marine` returns null and the marine cache is left exactly as it
was: no entry is created or overwritten, and no stale value is served. -/
theorem marine_failure_uncached (cache : MarineCache) (now lat lon : ℚ)
    (hmiss : ∀ e, cacheLookup cache (pyRound 2 lat, pyRound 2 lon) = some e →
      MARINE_TTL ≤ now - e.ts) :
    fetch_marine cache now lat lon .failure = (none, cache) := by
  unfold fetch_marine
  cases hc : cacheLookup cache (pyRound 2 lat, pyRound 2 lon) with
  | none => simp only [hc]
  | some e => simp only [hc, if_neg (not_lt.mpr (hmiss e hc))]

/-- Witness for C8: a failing fetch against the empty cache. -/
theorem marine_failure_uncached_witness :
    fetch_marine [] 0 0 0 .failure = (none, []) :=
  marine_failure_uncached [] 0 0 0
    (fun e h => by rw [cacheLookup_nil] at h; exact Option.noConfusion h)

/-! ### C9: snapshot fields are the last hourly samples (wind is coerced) -/

/-- Counterexample to C9 as stated: with an empty wind-speed hourly array,
the returned snapshot's `wind_speed_kt` is the substituted number 0 rather
than an absent/null field (the code computes `(None or 0) * 0.539957`). -/
theorem marine_wind_zero_substituted :
    (fetch_marine [] 0 0 0 (.ok (some emptyWindHourly))).1 =
      some { wind_speed_kt := 0, wind_dir := none, wave_height_m := none
             wave_dir := none, wave_period_s := none, sst_c := none } := by
  decide

/-- C9 amended: on a cache miss with a successful upstream response, each
non-wind snapshot field equals the last sample of its hourly array (null
when the array is empty, missing, or ends in a null sample), while
`wind_speed_kt` equals the last wind sample — coerced to 0 when it is
missing — converted m/s → kt and rounded to 1 decimal, hence 0.0 rather
than null when no wind sample exists. -/
theorem marine_snapshot_last_samples (cache : MarineCache) (now lat lon : ℚ)
    (h : HourlyBlock)
    (hmiss : ∀ e, cacheLookup cache (pyRound 2 lat, pyRound 2 lon) = some e →
      MARINE_TTL ≤ now - e.ts) :
    (fetch_marine cache now lat lon (.ok (some h))).1 =
      some { wind_speed_kt := pyRound 1 (((lastSample h.wind_speed_10m).getD 0) * KT_PER_MS)
             wind_dir := lastSample h.wind_direction_10m
             wave_height_m := lastSample h.wave_height
             wave_dir := lastSample h.wave_direction
             wave_period_s := lastSample h.wave_period
             sst_c := lastSample h.sea_surface_temperature } ∧
    (lastSample h.wind_speed_10m = none →
      ∃ d, (fetch_marine cache now lat lon (.ok (some h))).1 = some d ∧
        d.wind_speed_kt = 0) := by
  have hmain : (fetch_marine cache now lat lon (.ok (some h))).1 =
      some { wind_speed_kt := pyRound 1 (((lastSample h.wind_speed_10m).getD 0) * KT_PER_MS)
             wind_dir := lastSample h.wind_direction_10m
             wave_height_m := lastSample h.wave_height
             wave_dir := lastSample h.wave_direction
             wave_period_s := lastSample h.wave_period
             sst_c := lastSample h.sea_surface_temperature } := by
    unfold fetch_marine
    cases hc : cacheLookup cache (pyRound 2 lat, pyRound 2 lon) with
    | none => simp only [hc, Option.getD_some]
    | some e => simp only [hc, if_neg (not_lt.mpr (hmiss e hc)), Option.getD_some]
  refine ⟨hmain, fun hw => ⟨_, hmain, ?_⟩⟩
  rw [hw]
  show pyRound 1 ((Option.getD none 0) * KT_PER_MS) = 0
  rw [Option.getD_none, zero_mul]
  decide

/-- Witness for C9 (amended): a 10 m/s wind sample yields 5.4 kt, a null
last wave-direction sample and an empty wave-period array yield null
fields. -/
theorem marine_snapshot_last_samples_witness :
    (fetch_marine [] 0 0 0 (.ok (some sampleHourly))).1 =
      some { wind_speed_kt := mkRat 54 10, wind_dir := some 180, wave_height_m := some 3
             wave_dir := none, wave_period_s := none, sst_c := none } :=
  ((marine_snapshot_last_samples [] 0 0 0 sampleHourly
      (fun e h => by rw [cacheLookup_nil] at h; exact Option.noConfusion h)).1).trans
    (by decide)

/-! ### C2: prediction retry policy -/

theorem runPredictionAttempts_count_le {σ : Type} (outcome : ℕ → ℕ → UpstreamOutcome σ)
    (sched : List ℕ) (k : ℕ) :
    (runPredictionAttempts outcome sched k).2 ≤ k + sched.length := by
  induction sched generalizing k with
  | nil => simp [runPredictionAttempts]
  | cons hrs rest ih =>
    unfold runPredictionAttempts
    cases ho : outcome hrs k with
    | success v => dsimp only; simp only [List.length_cons]; omega
    | httpError c =>
      dsimp only
      by_cases hr : retryableCode c = true
      · rw [if_pos hr]
        have := ih (k + 1)
        simp only [List.length_cons]
        omega
      · rw [if_neg hr]
        simp only [List.length_cons]
        omega
    | requestFail =>
      dsimp only
      have := ih (k + 1)
      simp only [List.length_cons]
      omega

theorem runPredictionAttempts_all503 {σ : Type} (outcome : ℕ → ℕ → UpstreamOutcome σ)
    (h : ∀ hrs k, outcome hrs k = .httpError (some 503)) (sched : List ℕ) (k : ℕ) :
    runPredictionAttempts outcome sched k = (.error .unavailable, k + sched.length) := by
  induction sched generalizing k with
  | nil => simp [runPredictionAttempts]
  | cons hrs rest ih =>
    unfold runPredictionAttempts
    rw [h hrs k]
    dsimp only
    rw [if_pos (by decide : retryableCode (some 503) = true), ih (k + 1)]
    simp only [List.length_cons]
    congr 1
    omega

/-- C2: the predictions fetch walks the flattened window/attempt schedule
36h, 36h, 30h, 30h, 24h, 24h, so (a) it never issues more than 6 upstream
calls, (b) when every call returns HTTP 503 it fails with the final
RuntimeError after exactly 6 calls, and (c) an HTTP error whose status code
is not 502/503/504 is propagated immediately, after exactly one further
call and with no more attempts. -/
theorem predictions_retry_policy (outcome : ℕ → ℕ → UpstreamOutcome (List TidePoint)) :
    WINDOW_SCHEDULE = [36, 36, 30, 30, 24, 24] ∧
    (fetch_predictions_resilient outcome).2 ≤ 6 ∧
    ((∀ hrs k, outcome hrs k = .httpError (some 503)) →
      fetch_predictions_resilient outcome = (.error .unavailable, 6)) ∧
    (∀ hrs rest k c, retryableCode c = false → outcome hrs k = .httpError c →
      runPredictionAttempts outcome (hrs :: rest) k = (.error (.httpError c), k + 1)) := by
  refine ⟨rfl, ?_, ?_, ?_⟩
  · simpa [fetch_predictions_resilient, WINDOW_SCHEDULE] using
      runPredictionAttempts_count_le outcome WINDOW_SCHEDULE 0
  · intro h
    simpa [fetch_predictions_resilient, WINDOW_SCHEDULE] using
      runPredictionAttempts_all503 outcome h WINDOW_SCHEDULE 0
  · intro hrs rest k c hc ho
    unfold runPredictionAttempts
    rw [ho]
    dsimp only
    rw [if_neg (by simp [hc])]

/-- Witness for C2: all-503 outcomes exhaust exactly 6 calls; a 404 on the
first call aborts after 1 call. -/
theorem predictions_retry_policy_witness :
    fetch_predictions_resilient all503 = (.error .unavailable, 6) ∧
    runPredictionAttempts all404 WINDOW_SCHEDULE 0 = (.error (.httpError (some 404)), 1) :=
  ⟨(predictions_retry_policy all503).2.2.1 (fun _ _ => rfl),
   (predictions_retry_policy all404).2.2.2 36 [36, 30, 30, 24, 24] 0 (some 404)
      (by decide) rfl⟩

/-! ### C3: the hilo fetch boundary -/

/-- Counterexample to C3 as stated: `_fetch_hilo_resilient` does not always
return a (possibly empty) event list — an HTTP 404 from the upstream call is
re-raised immediately, propagating past its boundary. -/
theorem hilo_propagates_http404 :
    fetch_hilo_resilient hilo404 = .error (.httpError (some 404)) := rfl

/-- C3 amended: the hilo fetch makes at most 2 attempts; it returns the
fetched events on success, returns the empty list when every attempt fails
with a retryable outcome (a 502/503/504 HTTP error or a non-HTTP request
error), but propagates an HTTP error whose status code is not 502/503/504
immediately. -/
theorem hilo_retry_boundary (outcome : ℕ → UpstreamOutcome (List TideEvent)) :
    (∀ v, outcome 0 = .success v → fetch_hilo_resilient outcome = .ok v) ∧
    ((∀ k, k < 2 → outcome k = .requestFail ∨
        ∃ c, outcome k = .httpError c ∧ retryableCode c = true) →
      fetch_hilo_resilient outcome = .ok []) ∧
    (∀ c, retryableCode c = false → outcome 0 = .httpError c →
      fetch_hilo_resilient outcome = .error (.httpError c)) := by
  have hstep : ∀ n k, (outcome k = .requestFail ∨
      ∃ c, outcome k = .httpError c ∧ retryableCode c = true) →
      runHiloAttempts outcome (n + 1) k = runHiloAttempts outcome n (k + 1) := by
    intro n k h
    conv_lhs => unfold runHiloAttempts
    rcases h with h | ⟨c, h, hr⟩
    · rw [h]
    · rw [h]
      dsimp only
      rw [if_pos hr]
  refine ⟨?_, ?_, ?_⟩
  · intro v h
    unfold fetch_hilo_resilient runHiloAttempts
    rw [h]
  · intro h
    unfold fetch_hilo_resilient
    rw [hstep 1 0 (h 0 (by omega)), hstep 0 1 (h 1 (by omega))]
    rfl
  · intro c hc h
    unfold fetch_hilo_resilient runHiloAttempts
    rw [h]
    dsimp only
    rw [if_neg (by simp [hc])]

/-- Witness for C3 (amended): two 503s in a row yield the empty event
list. -/
theorem hilo_retry_boundary_witness :
    fetch_hilo_resilient hilo503 = .ok [] :=
  (hilo_retry_boundary hilo503).2.1 (fun _ _ => Or.inr ⟨some 503, rfl, by decide⟩)

/-! ### C1: stale fallback of the tides endpoint -/

/-- C1: for a tide request whose cached bundle (if any) has expired
(`now - ts ≥ 10` minutes), if the live predictions fetch fails then the
endpoint serves the most recent cached series and hilo for that station with
`stale=true`; with no cached entry at all it responds with the 502
"temporarily unavailable" error instead of returning data. -/
theorem tides_stale_fallback (cache : TidesCache) (station : String) (meta : TideStation)
    (now : ℚ) (predOutcome : ℕ → ℕ → UpstreamOutcome (List TidePoint))
    (hiloOutcome : ℕ → UpstreamOutcome (List TideEvent))
    (hexp : ∀ e, cacheLookup cache station = some e → TIDES_TTL ≤ now - e.ts)
    (hfail : ∃ err, (fetch_predictions_resilient predOutcome).1 = .error err) :
    (∀ e, cacheLookup cache station = some e →
      api_tides cache station meta now predOutcome hiloOutcome =
        (.payload meta e.series.length true e.series e.hilo, cache)) ∧
    (cacheLookup cache station = none →
      api_tides cache station meta now predOutcome hiloOutcome =
        (.unavailable502, cache)) := by
  obtain ⟨err, herr⟩ := hfail
  have hlf : ∀ cached, tidesLiveFetch cache station meta now predOutcome hiloOutcome cached =
      tidesFallback cache meta cached := by
    intro cached
    conv_lhs => unfold tidesLiveFetch
    rw [herr]
  constructor
  · intro e hc
    unfold api_tides
    rw [hc]
    dsimp only
    rw [if_neg (not_lt.mpr (hexp e hc)), hlf]
    rfl
  · intro hc
    unfold api_tides
    rw [hc]
    dsimp only
    rw [hlf]
    rfl

/-- Witness for C1: an 11-minute-old cached bundle is served with
`stale=true` when every live call 404s, and the same request against an
empty cache yields the 502 response. -/
theorem tides_stale_fallback_witness :
    api_tides tidesCacheW "8452660" NEWPORT 660 all404 hilo404 =
      (.payload NEWPORT 2 true tideEntryW.series tideEntryW.hilo, tidesCacheW) ∧
    api_tides [] "8452660" NEWPORT 660 all404 hilo404 = (.unavailable502, []) := by
  have hfail : ∃ err, (fetch_predictions_resilient all404).1 = .error err :=
    ⟨.httpError (some 404), rfl⟩
  constructor
  · exact (tides_stale_fallback tidesCacheW "8452660" NEWPORT 660 all404 hilo404
      (by intro e h; rw [show cacheLookup tidesCacheW "8452660" = some tideEntryW from rfl] at h;
          injection h with h'; rw [← h']; decide)
      hfail).1 tideEntryW rfl
  · exact (tides_stale_fallback [] "8452660" NEWPORT 660 all404 hilo404
      (fun e h => by rw [cacheLookup_nil] at h; exact Option.noConfusion h)
      hfail).2 rfl

/-! ### C10: the tides cache never holds a stale entry -/

theorem tidesLiveFetch_split (cache : TidesCache) (station : String) (meta : TideStation)
    (now : ℚ) (po : ℕ → ℕ → UpstreamOutcome (List TidePoint))
    (ho : ℕ → UpstreamOutcome (List TideEvent)) (cached : Option TidesCacheEntry) :
    (∃ series hiloEvents,
      tidesLiveFetch cache station meta now po ho cached =
        (.payload meta series.length false series hiloEvents,
         cacheInsert cache station ⟨now, meta, series, hiloEvents, false⟩)) ∨
    tidesLiveFetch cache station meta now po ho cached = tidesFallback cache meta cached := by
  unfold tidesLiveFetch
  cases hp : (fetch_predictions_resilient po).1 with
  | error e => right; rfl
  | ok series =>
    cases hh : fetch_hilo_resilient ho with
    | error e => right; rfl
    | ok ev => exact Or.inl ⟨series, ev, rfl⟩

/-- C10: assuming every current tides-cache entry has `stale=false`, the
same holds after any request — the only cache write is the fully successful
live fetch, which stores `stale=false` — and any request answered with
`stale=true` leaves the cache (timestamps included) unchanged, so each
subsequent request after expiry re-attempts a live fetch. -/
theorem tides_cache_stale_invariant (cache : TidesCache) (station : String)
    (meta : TideStation) (now : ℚ)
    (predOutcome : ℕ → ℕ → UpstreamOutcome (List TidePoint))
    (hiloOutcome : ℕ → UpstreamOutcome (List TideEvent))
    (hinv : ∀ s e, cacheLookup cache s = some e → e.stale = false) :
    (∀ s e,
      cacheLookup (api_tides cache station meta now predOutcome hiloOutcome).2 s = some e →
      e.stale = false) ∧
    (∀ m pc ser hl,
      (api_tides cache station meta now predOutcome hiloOutcome).1 =
        .payload m pc true ser hl →
      (api_tides cache station meta now predOutcome hiloOutcome).2 = cache) := by
  have hsplit := tidesLiveFetch_split cache station meta now predOutcome hiloOutcome
  have hsuccess : ∀ (cached : Option TidesCacheEntry) series
      (ev : List TideEvent),
      tidesLiveFetch cache station meta now predOutcome hiloOutcome cached =
        (.payload meta series.length false series ev,
         cacheInsert cache station ⟨now, meta, series, ev, false⟩) →
      (∀ s e, cacheLookup
          (tidesLiveFetch cache station meta now predOutcome hiloOutcome cached).2 s =
          some e → e.stale = false) ∧
      (∀ m pc ser hl,
        (tidesLiveFetch cache station meta now predOutcome hiloOutcome cached).1 =
          .payload m pc true ser hl →
        (tidesLiveFetch cache station meta now predOutcome hiloOutcome cached).2 = cache) := by
    intro cached series ev heq
    rw [heq]
    constructor
    · intro s e h
      rw [cacheLookup_insert] at h
      by_cases hs : s = station
      · rw [if_pos hs] at h
        injection h with h'
        rw [← h']
      · rw [if_neg hs] at h
        exact hinv s e h
    · intro m pc ser hl h
      dsimp only at h
      injection h with h1 h2 h3 h4 h5
      exact Bool.noConfusion h3
  have hfb : ∀ (cached : Option TidesCacheEntry),
      tidesLiveFetch cache station meta now predOutcome hiloOutcome cached =
        tidesFallback cache meta cached →
      (∀ s e, cacheLookup
          (tidesLiveFetch cache station meta now predOutcome hiloOutcome cached).2 s =
          some e → e.stale = false) ∧
      (∀ m pc ser hl,
        (tidesLiveFetch cache station meta now predOutcome hiloOutcome cached).1 =
          .payload m pc true ser hl →
        (tidesLiveFetch cache station meta now predOutcome hiloOutcome cached).2 = cache) := by
    intro cached heq
    rw [heq]
    have h2 : (tidesFallback cache meta cached).2 = cache := by
      unfold tidesFallback
      cases cached <;> rfl
    constructor
    · intro s e h
      rw [h2] at h
      exact hinv s e h
    · intro m pc ser hl _
      exact h2
  unfold api_tides
  cases hc : cacheLookup cache station with
  | some e =>
    dsimp only
    by_cases hf : now - e.ts < TIDES_TTL
    · rw [if_pos hf]
      refine ⟨fun s e' h => hinv s e' h, ?_⟩
      intro m pc ser hl h
      dsimp only at h
      injection h with h1 h2 h3 h4 h5
      rw [hinv station e hc] at h3
    · rw [if_neg hf]
      rcases hsplit (some e) with ⟨series, ev, heq⟩ | heq
      · exact hsuccess (some e) series ev heq
      · exact hfb (some e) heq
  | none =>
    dsimp only
    rcases hsplit none with ⟨series, ev, heq⟩ | heq
    · exact hsuccess none series ev heq
    · exact hfb none heq

/-- Witness for C10: an expired never-stale cache plus failing live calls
leave the cache unchanged, still all-fresh-flagged. -/
theorem tides_cache_stale_invariant_witness :
    (∀ s e,
      cacheLookup (api_tides tidesCacheW "8452660" NEWPORT 660 all404 hilo404).2 s =
        some e → e.stale = false) ∧
    (api_tides tidesCacheW "8452660" NEWPORT 660 all404 hilo404).2 = tidesCacheW := by
  have hinv : ∀ s e, cacheLookup tidesCacheW s = some e → e.stale = false := by
    intro s e h
    unfold tidesCacheW at h
    rw [cacheLookup_cons] at h
    by_cases hs : s = "8452660"
    · rw [if_pos hs] at h
      injection h with h'
      rw [← h']
      decide
    · rw [if_neg hs, cacheLookup_nil] at h
      exact Option.noConfusion h
  have h := tides_cache_stale_invariant tidesCacheW "8452660" NEWPORT 660 all404 hilo404 hinv
  refine ⟨h.1, ?_⟩
  exact h.2 NEWPORT 2 tideEntryW.series tideEntryW.hilo (by decide)

/-! ### Resolver lemmas shared by C4, C5, C6 -/

theorem scanPass_mem (dist : ℚ → ℚ → ℚ → ℚ → ℚ) (lat lon : ℚ) (activeOnly : Bool) :
    ∀ (stations : List DirStation) (acc : Option DirStation × ℚ) (s : DirStation),
      (scanPass dist lat lon activeOnly stations acc).1 = some s →
      s ∈ stations ∨ acc.1 = some s := by
  intro stations
  induction stations with
  | nil => intro acc s h; exact Or.inr h
  | cons st rest ih =>
    intro acc s h
    unfold scanPass at h
    cases hl : st.lat with
    | none =>
      rw [hl] at h
      rcases ih acc s h with hm | ha
      · exact Or.inl (List.mem_cons_of_mem st hm)
      · exact Or.inr ha
    | some sl =>
      rw [hl] at h
      cases hg : st.lng with
      | none =>
        rw [hg] at h
        rcases ih acc s h with hm | ha
        · exact Or.inl (List.mem_cons_of_mem st hm)
        · exact Or.inr ha
      | some sg =>
        rw [hg] at h
        dsimp only at h
        by_cases hcond :
            ((!activeOnly || isActive st) && decide (dist lat lon sl sg < acc.2)) = true
        · rw [if_pos hcond] at h
          rcases ih _ s h with hm | ha
          · exact Or.inl (List.mem_cons_of_mem st hm)
          · injection ha with ha'
            exact Or.inl (ha' ▸ List.mem_cons_self st rest)
        · rw [if_neg hcond] at h
          rcases ih acc s h with hm | ha
          · exact Or.inl (List.mem_cons_of_mem st hm)
          · exact Or.inr ha

theorem bestCandidate_mem (dist : ℚ → ℚ → ℚ → ℚ → ℚ) (lat lon : ℚ)
    (stations : List DirStation) (s : DirStation) (d : ℚ)
    (h : bestCandidate dist lat lon stations = (some s, d)) : s ∈ stations := by
  unfold bestCandidate at h
  dsimp only at h
  cases h1 : (scanPass dist lat lon true stations (none, BIG_D)).1 with
  | some s' =>
    rw [h1] at h
    dsimp only at h
    have h2 : (scanPass dist lat lon true stations (none, BIG_D)).1 = some s :=
      h ▸ congrArg Prod.fst h
    rcases scanPass_mem dist lat lon true stations (none, BIG_D) s h2 with hm | ha
    · exact hm
    · exact Option.noConfusion ha
  | none =>
    rw [h1] at h
    dsimp only at h
    have h2 : (scanPass dist lat lon false stations (none, BIG_D)).1 = some s :=
      congrArg Prod.fst h
    rcases scanPass_mem dist lat lon false stations (none, BIG_D) s h2 with hm | ha
    · exact hm
    · exact Option.noConfusion ha

theorem tryRadius_ok_of_ids (dist : ℚ → ℚ → ℚ → ℚ → ℚ) (lat lon max_km : ℚ)
    (stations : List DirStation)
    (hid : ∀ s ∈ stations, (DirStation.id s).isSome = true) :
    ∀ r, tryRadius dist lat lon max_km stations = some r → ∃ ts, r = .ok ts := by
  intro r h
  unfold tryRadius at h
  by_cases he : stations.isEmpty = true
  · rw [if_pos he] at h
    exact Option.noConfusion h
  · rw [if_neg he] at h
    rcases hb : bestCandidate dist lat lon stations with ⟨fst, d⟩
    rw [hb] at h
    cases fst with
    | none => exact Option.noConfusion h
    | some s =>
      dsimp only at h
      by_cases h1 : max_km < d
      · rw [if_pos h1] at h
        exact Option.noConfusion h
      · rw [if_neg h1] at h
        by_cases h2 : sanityReject s lat lon = true
        · rw [if_pos h2] at h
          exact Option.noConfusion h
        · rw [if_neg h2] at h
          injection h with h'
          obtain ⟨i, hi⟩ := Option.isSome_iff_exists.mp
            (hid s (bestCandidate_mem dist lat lon stations s d hb))
          refine ⟨{ id := i, name := s.name.getD "NOAA Station", state := s.state.getD ""
                    lat := s.lat, lon := s.lng, distance_km := some (pyRound 2 d) }, ?_⟩
          rw [← h']
          unfold acceptStation
          rw [hi]

theorem resolveRadii_regional (dist : ℚ → ℚ → ℚ → ℚ → ℚ) (lat lon max_km : ℚ)
    (dir : ℚ → List DirStation) :
    ∀ ds, (∀ δ ∈ ds, tryRadius dist lat lon max_km (dir δ) = none) →
      resolveRadii dist lat lon max_km dir ds = .ok (regionalDefault lat lon) := by
  intro ds
  induction ds with
  | nil => intro _; rfl
  | cons δ rest ih =>
    intro hall
    unfold resolveRadii
    rw [hall δ (List.mem_cons_self δ rest)]
    exact ih fun δ' h' => hall δ' (List.mem_cons_of_mem δ h')

theorem resolveRadii_ok (dist : ℚ → ℚ → ℚ → ℚ → ℚ) (lat lon max_km : ℚ)
    (dir : ℚ → List DirStation)
    (hid : ∀ δ s, s ∈ dir δ → (DirStation.id s).isSome = true) :
    ∀ ds, ∃ ts, resolveRadii dist lat lon max_km dir ds = .ok ts := by
  intro ds
  induction ds with
  | nil => exact ⟨regionalDefault lat lon, rfl⟩
  | cons δ rest ih =>
    unfold resolveRadii
    cases ht : tryRadius dist lat lon max_km (dir δ) with
    | none => exact ih
    | some r =>
      obtain ⟨ts, rfl⟩ :=
        tryRadius_ok_of_ids dist lat lon max_km (dir δ) (fun s hs => hid δ s hs) r ht
      exact ⟨ts, rfl⟩

/-! ### C4: totality of the resolver -/

/-- Counterexample to C4 as stated: the resolver is not total over all
directory result patterns — if the accepted best candidate's record has no
`id` key, `str(best["id"])` raises an uncaught `KeyError` (src/app.py:425),
so `resolve` fails rather than returning a station. -/
theorem resolver_keyerror :
    nearest_tide_station distConst1 (some (41, -71)) dirNoId 250 = .error () := rfl

/-- C4 amended: for every input whose directory query results all carry an
`id` field — including missing/non-numeric coordinates and empty or
rejected result sets — `resolve` returns a station (with its id a string);
when the coordinate is invalid the result is the Newport RI fallback, whose
id is "8452660" and whose distance_km is null. -/
theorem resolver_total_with_ids (dist : ℚ → ℚ → ℚ → ℚ → ℚ) (coord : Option (ℚ × ℚ))
    (dir : ℚ → List DirStation) (max_km : ℚ)
    (hid : ∀ δ s, s ∈ dir δ → (DirStation.id s).isSome = true) :
    (∃ ts, nearest_tide_station dist coord dir max_km = .ok ts) ∧
    (coord = none → nearest_tide_station dist coord dir max_km = .ok NEWPORT) ∧
    NEWPORT.id = "8452660" ∧ NEWPORT.distance_km = none := by
  refine ⟨?_, ?_, rfl, rfl⟩
  · cases coord with
    | none => exact ⟨NEWPORT, rfl⟩
    | some p =>
      obtain ⟨la, lo⟩ := p
      exact resolveRadii_ok dist la lo max_km dir hid DELTAS
  · intro h
    subst h
    rfl

/-- Witness for C4 (amended): an unparsable coordinate against an
all-empty directory resolves to Newport RI. -/
theorem resolver_total_with_ids_witness :
    nearest_tide_station distConst1 none dirEmpty 250 = .ok NEWPORT :=
  (resolver_total_with_ids distConst1 none dirEmpty 250
    (fun _ s hs => absurd hs (List.not_mem_nil s))).2.1 rfl

/-! ### C5: regional fallback bands -/

/-- C5: when every bounding-box search is empty or rejected, the resolver
returns the regional default for the query coordinate; (41.0, -71.5) falls
in the East-Coast band (Newport RI), (29.0, -95.0) in the Gulf band
(Galveston Pier 21), (37.0, -122.0) in the West-Coast band (San Francisco),
any coordinate outside all three bands gets Newport RI, and every
regional-fallback station has `distance_km` null. -/
theorem regional_fallback_bands (dist : ℚ → ℚ → ℚ → ℚ → ℚ) (dir : ℚ → List DirStation)
    (lat lon max_km : ℚ)
    (hrej : ∀ δ ∈ DELTAS, tryRadius dist lat lon max_km (dir δ) = none) :
    nearest_tide_station dist (some (lat, lon)) dir max_km =
      .ok (regionalDefault lat lon) ∧
    regionalDefault 41 (mkRat (-715) 10) = NEWPORT ∧
    regionalDefault 29 (-95) = GALVESTON ∧
    regionalDefault 37 (-122) = SAN_FRANCISCO ∧
    (∀ la lo, ¬ inEastBand la lo → ¬ inGulfBand la lo → ¬ inWestBand la lo →
      regionalDefault la lo = NEWPORT) ∧
    (∀ la lo, (regionalDefault la lo).distance_km = none) := by
  refine ⟨resolveRadii_regional dist lat lon max_km dir DELTAS hrej,
    by decide, by decide, by decide, ?_, ?_⟩
  · intro la lo h1 h2 h3
    unfold regionalDefault
    rw [if_neg h1, if_neg h2, if_neg h3]
  · intro la lo
    unfold regionalDefault
    split_ifs <;> rfl

/-- Witness for C5: an all-empty directory at (41, -71.5) yields Newport. -/
theorem regional_fallback_bands_witness :
    nearest_tide_station distConst1 (some (41, mkRat (-715) 10)) dirEmpty 250 =
      .ok (regionalDefault 41 (mkRat (-715) 10)) :=
  (regional_fallback_bands distConst1 dirEmpty 41 (mkRat (-715) 10) 250
    (fun _ _ => rfl)).1

/-! ### C6: the sanity guard -/

/-- C6: given the selected best candidate at distance `d`, the radius
iteration rejects it (moving to the next radius) when `d` exceeds `max_km`,
and when the candidate is simultaneously more than 10° away in latitude AND
more than 10° away in longitude; but when its latitude is within 10° (the
longitude may be arbitrarily far off, e.g. 15°) and `d ≤ max_km`, the
candidate is accepted. -/
theorem station_sanity_guard (dist : ℚ → ℚ → ℚ → ℚ → ℚ) (lat lon max_km : ℚ)
    (stations : List DirStation) (s : DirStation) (d : ℚ)
    (hbest : bestCandidate dist lat lon stations = (some s, d)) :
    (max_km < d → tryRadius dist lat lon max_km stations = none) ∧
    (∀ sl sg, s.lat = some sl → s.lng = some sg →
      10 < ratAbs (sl - lat) → 10 < ratAbs (sg - lon) → d ≤ max_km →
      tryRadius dist lat lon max_km stations = none) ∧
    (∀ sl, s.lat = some sl → ratAbs (sl - lat) ≤ 10 → d ≤ max_km →
      tryRadius dist lat lon max_km stations = some (acceptStation s d)) := by
  have hne : stations.isEmpty = false := by
    cases stations with
    | nil =>
      rw [show bestCandidate dist lat lon [] = (none, BIG_D) from rfl] at hbest
      injection hbest with h1 h2
      exact Option.noConfusion h1
    | cons a l => rfl
  have htr : tryRadius dist lat lon max_km stations =
      (if max_km < d then none
       else if sanityReject s lat lon then none
       else some (acceptStation s d)) := by
    unfold tryRadius
    rw [if_neg (by simp [hne]), hbest]
  refine ⟨?_, ?_, ?_⟩
  · intro hd
    rw [htr, if_pos hd]
  · intro sl sg hsl hsg h10a h10b hdm
    have hsr : sanityReject s lat lon = true := by
      unfold sanityReject
      rw [hsl, hsg]
      dsimp only
      rw [decide_eq_true h10a, decide_eq_true h10b]
      rfl
    rw [htr, if_neg (not_lt.mpr hdm), if_pos hsr]
  · intro sl hsl hle hdm
    have hsr : sanityReject s lat lon = false := by
      unfold sanityReject
      rw [hsl]
      cases hsg : s.lng with
      | none => rfl
      | some sg =>
        dsimp only
        rw [decide_eq_false (not_lt.mpr hle)]
        exact Bool.false_and _
    rw [htr, if_neg (not_lt.mpr hdm), if_neg (by simp [hsr])]

/-- Witness for C6: a candidate 2° off in latitude but 15° off in longitude,
50 km away with `max_km = 250`, is accepted. -/
theorem station_sanity_guard_witness :
    tryRadius distConst50 41 (-86) 250 [statFarLon] = some (acceptStation statFarLon 50) :=
  (station_sanity_guard distConst50 41 (-86) 250 [statFarLon] statFarLon 50
    (by decide)).2.2 43 rfl (by decide) (by decide)

/-! ### C7: nearby spots are filtered, ranked, and capped -/

theorem collectRows_mem (dist : ℚ → ℚ → ℚ → ℚ → ℚ) (upstream : ℚ → ℚ → MarineUpstream)
    (now lat lon radius : ℚ) :
    ∀ (spots : List Dive) (seen : List ℕ) (cache : MarineCache) (r : SpotRow),
      r ∈ (collectRows dist upstream now lat lon radius spots seen cache).1 →
      ∃ dv, dv ∈ spots ∧ r.id = dv.id ∧ dist lat lon dv.lat dv.lon ≤ radius := by
  intro spots
  induction spots with
  | nil => intro seen cache r h; exact absurd h (List.not_mem_nil r)
  | cons d rest ih =>
    intro seen cache r h
    unfold collectRows at h
    by_cases hseen : d.id ∈ seen
    · rw [if_pos hseen] at h
      obtain ⟨dv, hdv, hid, hdist⟩ := ih seen cache r h
      exact ⟨dv, List.mem_cons_of_mem d hdv, hid, hdist⟩
    · rw [if_neg hseen] at h
      dsimp only at h
      by_cases hrad : dist lat lon d.lat d.lon ≤ radius
      · rw [if_pos hrad] at h
        rcases List.mem_cons.mp h with hr | hr
        · refine ⟨d, List.mem_cons_self d rest, ?_, hrad⟩
          rw [hr]
        · obtain ⟨dv, hdv, hid, hdist⟩ := ih _ _ r hr
          exact ⟨dv, List.mem_cons_of_mem d hdv, hid, hdist⟩
      · rw [if_neg hrad] at h
        obtain ⟨dv, hdv, hid, hdist⟩ := ih _ _ r h
        exact ⟨dv, List.mem_cons_of_mem d hdv, hid, hdist⟩

theorem collectRows_length (dist : ℚ → ℚ → ℚ → ℚ → ℚ) (upstream : ℚ → ℚ → MarineUpstream)
    (now lat lon radius : ℚ) :
    ∀ (spots : List Dive) (seen : List ℕ) (cache : MarineCache),
      (∀ dv ∈ spots, dist lat lon dv.lat dv.lon ≤ radius) →
      (∀ dv ∈ spots, dv.id ∉ seen) →
      (spots.map Dive.id).Nodup →
      (collectRows dist upstream now lat lon radius spots seen cache).1.length =
        spots.length := by
  intro spots
  induction spots with
  | nil => intro _ _ _ _ _; rfl
  | cons d rest ih =>
    intro seen cache hall hfresh hnodup
    unfold collectRows
    rw [if_neg (hfresh d (List.mem_cons_self d rest))]
    dsimp only
    rw [if_pos (hall d (List.mem_cons_self d rest))]
    dsimp only
    rw [List.length_cons, List.length_cons]
    rw [List.map_cons] at hnodup
    obtain ⟨hhead, htail⟩ := List.nodup_cons.mp hnodup
    congr 1
    refine ih (d.id :: seen) _ (fun dv hv => hall dv (List.mem_cons_of_mem d hv))
      (fun dv hv => ?_) htail
    intro hmem
    rcases List.mem_cons.mp hmem with heq | hseen
    · exact hhead (heq ▸ List.mem_map_of_mem Dive.id hv)
    · exact hfresh dv (List.mem_cons_of_mem d hv) hseen

/-- C7: the nearby-spots result contains only dives whose distance to the
query is at most `radius_km`, is sorted ascending by the `distance_km`
output field, and has at most 8 elements; with 20 distinct public dives all
within radius the output has exactly 8 elements. -/
theorem nearby_spots_ranked (dist : ℚ → ℚ → ℚ → ℚ → ℚ)
    (upstream : ℚ → ℚ → MarineUpstream) (now lat lon radius : ℚ)
    (spots : List Dive) (cache : MarineCache) :
    (∀ r ∈ (api_nearby_spots dist upstream now lat lon radius spots cache).1,
      ∃ dv, dv ∈ spots ∧ r.id = dv.id ∧ dist lat lon dv.lat dv.lon ≤ radius) ∧
    List.Sorted rowLE (api_nearby_spots dist upstream now lat lon radius spots cache).1 ∧
    (api_nearby_spots dist upstream now lat lon radius spots cache).1.length ≤ 8 ∧
    (spots.length = 20 → (spots.map Dive.id).Nodup →
      (∀ dv ∈ spots, dv.is_public = true) →
      (∀ dv ∈ spots, dist lat lon dv.lat dv.lon ≤ radius) →
      (api_nearby_spots dist upstream now lat lon radius spots cache).1.length = 8) := by
  haveI : IsTotal SpotRow rowLE := ⟨fun a b => le_total a.distance_km b.distance_km⟩
  haveI : IsTrans SpotRow rowLE := ⟨fun _ _ _ hab hbc => le_trans hab hbc⟩
  unfold api_nearby_spots
  dsimp only
  refine ⟨?_, ?_, ?_, ?_⟩
  · intro r hr
    exact collectRows_mem dist upstream now lat lon radius spots [] cache r
      ((List.mem_insertionSort rowLE).mp (List.take_subset 8 _ hr))
  · exact List.Pairwise.sublist (List.take_sublist 8 _)
      (List.sorted_insertionSort rowLE _)
  · rw [List.length_take]
    exact min_le_left _ _
  · intro h20 hnodup _ hall
    rw [List.length_take, List.length_insertionSort,
      collectRows_length dist upstream now lat lon radius spots [] cache hall
        (fun dv _ => List.not_mem_nil dv.id) hnodup, h20]
    exact min_eq_left (by omega)

/-- Witness for C7: 20 distinct public dives, all 1 km away with a 100 km
radius, produce exactly 8 rows. -/
theorem nearby_spots_ranked_witness :
    (api_nearby_spots distConst1 marineAllFail 0 0 0 100 spots20 []).1.length = 8 :=
  (nearby_spots_ranked distConst1 marineAllFail 0 0 0 100 spots20 []).2.2.2
    (by decide) (by decide) (by decide) (by decide)

end LagoonLink
